import Mathlib

/-!
# Verification of the rust-knapsack content-addressed distribution layer

Shallow embedding of the repository's core logic:

* `src/video.rs` — `VideoProcessor::prepare_video`: reads a file, hashes it
  with SHA-256, hex-encodes the digest, and builds a `VideoMetadata` with a
  single chunk spanning the whole file.  File I/O is environmental; the
  embedding takes the successfully-read byte buffer as input and keeps the
  `Result` channel (`Except`) of the Rust signature.
* `src/storage.rs` — `Storage`: two SQLite tables (`videos`, `chunks`) written
  with `INSERT OR REPLACE`.  The connection never executes
  `PRAGMA foreign_keys = ON`, and SQLite leaves foreign-key enforcement OFF by
  default, so the declared `FOREIGN KEY(video_hash) REFERENCES videos(hash)`
  clause on `chunks` is *not* enforced at runtime.  The store is embedded as
  association lists keyed by hash, with `INSERT OR REPLACE` modelled as
  delete-conflicting-row-then-insert.
* `src/network.rs` — the wire-protocol request/response enums `KnapRequest`
  and `KnapResponse`, embedded as closed inductive types.

Bytes are `Nat`s below 256; 32-bit words are `Nat`s reduced mod `2^32`.
-/

/-! ## SHA-256 (as used via the `sha2` crate's `Sha256::digest`) -/

/-- 2^32, the modulus for 32-bit word arithmetic. -/
def w32 : Nat := 4294967296

/-- Right rotation of a 32-bit word by `n` bits. -/
def rotr32 (n x : Nat) : Nat :=
  ((x >>> n) ||| (x <<< (32 - n))) % w32

/-- Bitwise complement of a 32-bit word. -/
def not32 (x : Nat) : Nat := 4294967295 - x % w32

/-- SHA-256 choice function. -/
def sha2ch (x y z : Nat) : Nat := (x &&& y) ^^^ (not32 x &&& z)

/-- SHA-256 majority function. -/
def sha2maj (x y z : Nat) : Nat := (x &&& y) ^^^ (x &&& z) ^^^ (y &&& z)

/-- Big Σ₀. -/
def bigSigma0 (x : Nat) : Nat := rotr32 2 x ^^^ rotr32 13 x ^^^ rotr32 22 x

/-- Big Σ₁. -/
def bigSigma1 (x : Nat) : Nat := rotr32 6 x ^^^ rotr32 11 x ^^^ rotr32 25 x

/-- Small σ₀. -/
def smallSigma0 (x : Nat) : Nat := rotr32 7 x ^^^ rotr32 18 x ^^^ (x >>> 3)

/-- Small σ₁. -/
def smallSigma1 (x : Nat) : Nat := rotr32 17 x ^^^ rotr32 19 x ^^^ (x >>> 10)

/-- The 64 SHA-256 round constants (FIPS 180-4 §4.2.2, decimal). -/
def sha2K : List Nat :=
  [1116352408, 1899447441, 3049323471, 3921009573, 961987163,
   1508970993, 2453635748, 2870763221, 3624381080, 310598401,
   607225278, 1426881987, 1925078388, 2162078206, 2614888103,
   3248222580, 3835390401, 4022224774, 264347078, 604807628,
   770255983, 1249150122, 1555081692, 1996064986, 2554220882,
   2821834349, 2952996808, 3210313671, 3336571891, 3584528711,
   113926993, 338241895, 666307205, 773529912, 1294757372,
   1396182291, 1695183700, 1986661051, 2177026350, 2456956037,
   2730485921, 2820302411, 3259730800, 3345764771, 3516065817,
   3600352804, 4094571909, 275423344, 430227734, 506948616,
   659060556, 883997877, 958139571, 1322822218, 1537002063,
   1747873779, 1955562222, 2024104815, 2227730452, 2361852424,
   2428436474, 2756734187, 3204031479, 3329325298]

/-- The initial SHA-256 hash state (FIPS 180-4 §5.3.3, decimal). -/
def sha2H0 : List Nat :=
  [1779033703, 3144134277, 1013904242,
   2773480762, 1359893119, 2600822924,
   528734635, 1541459225]

/-- Big-endian encoding of `n` into `k` bytes. -/
def toBE : Nat → Nat → List Nat
  | 0, _ => []
  | k + 1, n => toBE k (n / 256) ++ [n % 256]

/-- SHA-256 padding: append `0x80`, zero bytes to reach 56 mod 64, then the
bit length as an 8-byte big-endian integer. -/
def padMessage (msg : List Nat) : List Nat :=
  let L := msg.length
  let zeros := (56 + 64 - (L + 1) % 64) % 64
  msg ++ [0x80] ++ List.replicate zeros 0 ++ toBE 8 (L * 8)

/-- Group a byte list into big-endian 32-bit words. -/
def bytesToWords : List Nat → List Nat
  | a :: b :: c :: d :: rest =>
      (a * 16777216 + b * 65536 + c * 256 + d) :: bytesToWords rest
  | _ => []

/-- Split a word list into 16-word blocks; `fuel` bounds the recursion so the
definition is structural and kernel-reducible. -/
def toBlocks : Nat → List Nat → List (List Nat)
  | 0, _ => []
  | _, [] => []
  | fuel + 1, ws => ws.take 16 :: toBlocks fuel (ws.drop 16)

/-- Extend a 16-word block to the 64-word message schedule, one word per step. -/
def extendSchedule : Nat → List Nat → List Nat
  | 0, ws => ws
  | n + 1, ws =>
      let t := ws.length
      let word := (smallSigma1 (ws.getD (t - 2) 0) + ws.getD (t - 7) 0 +
                   smallSigma0 (ws.getD (t - 15) 0) + ws.getD (t - 16) 0) % w32
      extendSchedule n (ws ++ [word])

/-- The working state of the compression function (registers a–h). -/
structure Sha2State where
  a : Nat
  b : Nat
  c : Nat
  d : Nat
  e : Nat
  f : Nat
  g : Nat
  h : Nat
deriving Repr, DecidableEq

/-- One SHA-256 compression round. -/
def sha2Round (s : Sha2State) (kw : Nat × Nat) : Sha2State :=
  let T1 := (s.h + bigSigma1 s.e + sha2ch s.e s.f s.g + kw.1 + kw.2) % w32
  let T2 := (bigSigma0 s.a + sha2maj s.a s.b s.c) % w32
  { a := (T1 + T2) % w32, b := s.a, c := s.b, d := s.c,
    e := (s.d + T1) % w32, f := s.e, g := s.f, h := s.g }

/-- Compress one 512-bit block into the running hash value. -/
def sha2Compress (H : List Nat) (block : List Nat) : List Nat :=
  let W := extendSchedule 48 block
  let init : Sha2State :=
    { a := H.getD 0 0, b := H.getD 1 0, c := H.getD 2 0, d := H.getD 3 0,
      e := H.getD 4 0, f := H.getD 5 0, g := H.getD 6 0, h := H.getD 7 0 }
  let s := (sha2K.zip W).foldl sha2Round init
  [(H.getD 0 0 + s.a) % w32, (H.getD 1 0 + s.b) % w32,
   (H.getD 2 0 + s.c) % w32, (H.getD 3 0 + s.d) % w32,
   (H.getD 4 0 + s.e) % w32, (H.getD 5 0 + s.f) % w32,
   (H.getD 6 0 + s.g) % w32, (H.getD 7 0 + s.h) % w32]

/-- SHA-256 digest of a byte sequence, as a list of 32 bytes. -/
def sha256 (msg : List Nat) : List Nat :=
  let ws := bytesToWords (padMessage msg)
  let H := (toBlocks ws.length ws).foldl sha2Compress sha2H0
  H.foldr (fun h acc => toBE 4 h ++ acc) []

/-! ## Hex encoding (the `hex` crate's lowercase `hex::encode`) -/

/-- Lowercase hexadecimal digit for a value below 16. -/
def hexDigit (n : Nat) : Char :=
  if n < 10 then Char.ofNat (48 + n) else Char.ofNat (87 + n)

/-- Lowercase hex encoding of a byte list, as produced by `hex::encode`. -/
def hexEncode (bs : List Nat) : String :=
  String.mk (bs.foldr (fun b acc => hexDigit (b / 16) :: hexDigit (b % 16) :: acc) [])

/-- The bytes of a string (all strings here are ASCII hex digests). -/
def strBytes (s : String) : List Nat := s.data.map Char.toNat

/-! ## `src/video.rs` — the Content Addresser -/

/-- `ChunkMetadata` from `src/video.rs`: hex digest, byte size, position. -/
structure ChunkMetadata where
  hash : String
  size : Nat
  order : Nat
deriving Repr, DecidableEq

/-- `VideoMetadata` from `src/video.rs`. -/
structure VideoMetadata where
  hash : String
  chunks : List ChunkMetadata
  duration : Float
  codec : String
  title : String
  description : String
deriving Repr

/-- The metadata value `VideoProcessor::prepare_video` builds from the bytes
of the file, translated line by line from `src/video.rs`: the whole buffer is
hashed with SHA-256 and hex-encoded, and a single chunk covering the entire
file is created, with fixed placeholder media fields. -/
def VideoProcessor.prepare_video_core (buffer : List Nat) : VideoMetadata :=
  let hash_hex := hexEncode (sha256 buffer)
  let chunk : ChunkMetadata := { hash := hash_hex, size := buffer.length, order := 0 }
  { hash := hash_hex,
    chunks := [chunk],
    duration := 0.0,
    codec := "mp4",
    title := "Untitled",
    description := "No description" }

/-- `VideoProcessor::prepare_video` returns `anyhow::Result<VideoMetadata>`;
its only fallible steps are `File::open` and `read_to_end`.  The embedding
takes the successfully-read buffer as input, so the body has no remaining
failure path and always returns `Ok`. -/
def VideoProcessor.prepare_video (buffer : List Nat) : Except String VideoMetadata :=
  Except.ok (VideoProcessor.prepare_video_core buffer)

/-! ## `src/storage.rs` — the Chunk Store

SQLite specifics that the embedding reflects:
* `INSERT OR REPLACE` deletes any row conflicting on the primary key and
  inserts the new row; it never fails on a duplicate key.
* Foreign-key constraints are declared in the `chunks` schema but SQLite only
  enforces them when `PRAGMA foreign_keys = ON` has been executed on the
  connection; `Storage::new` never does, so `store_chunk` succeeds for any
  `video_hash`, present in `videos` or not.
Each `rusqlite` call can also fail on I/O-level database errors; those are
environmental and have no data-dependent trigger, so the embedding models the
successful execution of each statement as a pure state update. -/

/-- The two tables created by `Storage::new`: `videos (hash PRIMARY KEY,
metadata)` and `chunks (hash PRIMARY KEY, video_hash, data)`. -/
structure Storage where
  videos : List (String × List Nat)
  chunks : List (String × String × List Nat)
deriving Repr, DecidableEq

/-- `Storage::new` on a fresh database file: both tables empty. -/
def Storage.new : Storage := { videos := [], chunks := [] }

/-- `Storage::store_video`: `INSERT OR REPLACE INTO videos` — drop any row
with the same `hash`, then insert the new row. -/
def Storage.store_video (s : Storage) (hash : String) (metadata : List Nat) : Storage :=
  { s with videos := s.videos.filter (fun r => r.1 ≠ hash) ++ [(hash, metadata)] }

/-- `Storage::store_chunk`: `INSERT OR REPLACE INTO chunks` — drop any row
with the same `hash`, then insert the new row.  No foreign-key check runs
(see the section comment) and no digest of `data` is computed. -/
def Storage.store_chunk (s : Storage) (chunk_hash video_hash : String) (data : List Nat) : Storage :=
  { s with chunks := s.chunks.filter (fun r => r.1 ≠ chunk_hash) ++ [(chunk_hash, video_hash, data)] }

/-- Payload bytes stored under a chunk hash, with the owning video hash. -/
def Storage.lookupChunk (s : Storage) (chunk_hash : String) : Option (String × List Nat) :=
  (s.chunks.find? (fun r => r.1 = chunk_hash)).map (fun r => r.2)

/-- Metadata blob stored under a video hash. -/
def Storage.lookupVideo (s : Storage) (hash : String) : Option (List Nat) :=
  (s.videos.find? (fun r => r.1 = hash)).map (fun r => r.2)

/-! ## `src/network.rs` — the wire protocol -/

/-- `KnapRequest` from `src/network.rs`: the closed set of request variants. -/
inductive KnapRequest where
  | Metadata (videoHash : String)
  | Chunk (chunkHash : String)
  | Search (query : String)
deriving Repr, DecidableEq

/-- `KnapResponse` from `src/network.rs`: the closed set of response variants. -/
inductive KnapResponse where
  | Metadata (bytes : List Nat)
  | Chunk (bytes : List Nat)
  | SearchResults (results : List VideoMetadata)
  | NotFound
deriving Repr

/-! ## Interpreting chunk records as byte ranges

`ChunkMetadata` carries only digest, size and order; the payload of a chunk is
the contiguous byte range of the source buffer it describes (spec glossary:
a chunk is "a contiguous byte range of a video").  `concatPayloads` walks the
records in the given order, slicing each chunk's `size` bytes off the front of
the remaining input; `sortByOrder` arranges records by increasing `order`. -/

/-- Insert a chunk record into a list sorted by increasing `order`. -/
def insertByOrder (c : ChunkMetadata) : List ChunkMetadata → List ChunkMetadata
  | [] => [c]
  | d :: ds => if c.order ≤ d.order then c :: d :: ds else d :: insertByOrder c ds

/-- Sort chunk records by increasing `order` (insertion sort). -/
def sortByOrder (cs : List ChunkMetadata) : List ChunkMetadata :=
  cs.foldr insertByOrder []

/-- Concatenation of the payload ranges the chunk records describe, taken in
list order against the buffer `b`. -/
def concatPayloads (b : List Nat) : List ChunkMetadata → List Nat
  | [] => []
  | c :: cs => b.take c.size ++ concatPayloads (b.drop c.size) cs

/-! ## Claim theorems -/

set_option maxRecDepth 40000

/-- C1: the claim states the video-level id is the digest of the concatenated
chunk ids; on the empty input the produced id is the digest of the raw bytes,
which differs both from the digest of the concatenated hex chunk ids and from
the digest of the concatenated raw chunk digests. -/
theorem C1_counterexample :
    (VideoProcessor.prepare_video_core []).hash ≠
      hexEncode (sha256 (strBytes (String.join
        ((VideoProcessor.prepare_video_core []).chunks.map (fun c => c.hash))))) ∧
    (VideoProcessor.prepare_video_core []).hash ≠ hexEncode (sha256 (sha256 [])) := by
  constructor <;> decide

/-- C1 (amended): the video-level id produced by `prepare_video` is the hex
SHA-256 digest of the raw file bytes, and the single chunk's id coincides
with it. -/
theorem C1_video_id_is_raw_digest (buffer : List Nat) :
    (VideoProcessor.prepare_video_core buffer).hash = hexEncode (sha256 buffer) ∧
    (VideoProcessor.prepare_video_core buffer).chunks.map (fun c => c.hash) =
      [(VideoProcessor.prepare_video_core buffer).hash] :=
  ⟨rfl, rfl⟩

/-- C2: the claim predicts that a 10-byte input chunked at size 4 yields
ceil(10/4) = 3 chunks each of at most 4 bytes; the code returns a single
chunk of size 10. -/
theorem C2_counterexample :
    ¬ ((VideoProcessor.prepare_video_core [0, 1, 2, 3, 4, 5, 6, 7, 8, 9]).chunks.length =
          (10 + 4 - 1) / 4 ∧
       ∀ c ∈ (VideoProcessor.prepare_video_core [0, 1, 2, 3, 4, 5, 6, 7, 8, 9]).chunks,
         c.size ≤ 4) := by
  decide

/-- C2 (amended): `prepare_video` performs no splitting: for every input it
returns exactly one chunk, of size the whole input length, at order 0. -/
theorem C2_single_chunk (buffer : List Nat) :
    (VideoProcessor.prepare_video_core buffer).chunks.map (fun c => (c.size, c.order)) =
      [(buffer.length, 0)] :=
  rfl

/-- C3: the claim states `prepare_video` fails with `EmptyInput` on the empty
input; it in fact returns `Ok` with a well-formed metadata value. -/
theorem C3_counterexample :
    (VideoProcessor.prepare_video []).toOption.map (fun m => m.hash) =
      some "e3b0c44298fc1c149afbf4c8996fb92427ae41e4649b934ca495991b7852b855" ∧
    (VideoProcessor.prepare_video []).toOption.map (fun m => m.chunks.map (fun c => c.size)) =
      some [0] := by
  constructor <;> decide

/-- C3 (amended): on the empty input `prepare_video` succeeds, returning
metadata with a single chunk of size 0 at order 0 whose id is the SHA-256
digest of the empty byte sequence; no `EmptyInput` error path exists. -/
theorem C3_empty_input_ok :
    VideoProcessor.prepare_video [] = Except.ok (VideoProcessor.prepare_video_core []) ∧
    (VideoProcessor.prepare_video_core []).chunks.map (fun c => (c.size, c.order)) = [(0, 0)] ∧
    (VideoProcessor.prepare_video_core []).hash =
      "e3b0c44298fc1c149afbf4c8996fb92427ae41e4649b934ca495991b7852b855" :=
  ⟨rfl, rfl, by decide⟩

/-- C4: on a store with no videos at all, `store_chunk` succeeds and records
an orphan chunk row referencing the unknown video hash — the declared foreign
key is not enforced because the connection never enables it. -/
theorem C4_orphan_chunk_stored :
    Storage.new.videos = [] ∧
    (Storage.new.store_chunk "c0" "unknown-video" [1, 2, 3]).chunks =
      [("c0", "unknown-video", [1, 2, 3])] :=
  ⟨rfl, rfl⟩

/-- C5: storing payload `[2]` under chunk id `c0` that already holds payload
`[1]` changes the stored state (the row is replaced), contradicting the
claim that the call fails with `HashMismatch` and leaves state unchanged. -/
theorem C5_counterexample :
    ((Storage.new.store_chunk "c0" "v0" [1]).store_chunk "c0" "v0" [2]).chunks ≠
      (Storage.new.store_chunk "c0" "v0" [1]).chunks := by
  decide

/-- C5 (amended): `store_chunk` under an existing chunk id unconditionally
replaces the stored row (`INSERT OR REPLACE`); the second write wins and no
digest verification or `HashMismatch` check is performed. -/
theorem C5_store_chunk_overwrites (s : Storage) (c v v' : String) (p p' : List Nat) :
    (s.store_chunk c v p).store_chunk c v' p' = s.store_chunk c v' p' := by
  simp [Storage.store_chunk, List.filter_append, List.filter_filter]

/-- C6: `store_video` is idempotent: re-storing the same hash and metadata
bytes yields exactly the stored state of a single call. -/
theorem C6_store_video_idempotent (s : Storage) (h : String) (m : List Nat) :
    (s.store_video h m).store_video h m = s.store_video h m := by
  simp [Storage.store_video, List.filter_append, List.filter_filter]

/-- C7: chunking and hashing is deterministic — two calls of `prepare_video`
on the same bytes yield the same video id and the same chunk id sequence. -/
theorem C7_determinism (b1 b2 : List Nat) (h : b1 = b2) :
    (VideoProcessor.prepare_video_core b1).hash = (VideoProcessor.prepare_video_core b2).hash ∧
    (VideoProcessor.prepare_video_core b1).chunks.map (fun c => c.hash) =
      (VideoProcessor.prepare_video_core b2).chunks.map (fun c => c.hash) := by
  subst h
  exact ⟨rfl, rfl⟩

/-- C7 witness: the determinism theorem applied at the one-byte input `[0]`. -/
theorem C7_witness :
    (VideoProcessor.prepare_video_core [0]).hash = (VideoProcessor.prepare_video_core [0]).hash ∧
    (VideoProcessor.prepare_video_core [0]).chunks.map (fun c => c.hash) =
      (VideoProcessor.prepare_video_core [0]).chunks.map (fun c => c.hash) :=
  C7_determinism [0] [0] rfl

/-- C8: concatenating the payload byte ranges described by the produced chunk
records, taken in increasing `order`, reproduces the input exactly. -/
theorem C8_chunk_coverage (b : List Nat) :
    concatPayloads b (sortByOrder (VideoProcessor.prepare_video_core b).chunks) = b := by
  simp [VideoProcessor.prepare_video_core, sortByOrder, insertByOrder, concatPayloads]

/-- C9: the wire protocol's request and response types are closed tagged
unions: every request is `Metadata`, `Chunk` or `Search`, and every response
is `Metadata`, `Chunk`, `SearchResults` or `NotFound`. -/
theorem C9_protocol_closed :
    (∀ r : KnapRequest, (∃ s, r = KnapRequest.Metadata s) ∨
      (∃ s, r = KnapRequest.Chunk s) ∨ (∃ s, r = KnapRequest.Search s)) ∧
    (∀ p : KnapResponse, (∃ b, p = KnapResponse.Metadata b) ∨
      (∃ b, p = KnapResponse.Chunk b) ∨
      (∃ rs, p = KnapResponse.SearchResults rs) ∨ p = KnapResponse.NotFound) := by
  constructor
  · intro r
    cases r with
    | Metadata s => exact Or.inl ⟨s, rfl⟩
    | Chunk s => exact Or.inr (Or.inl ⟨s, rfl⟩)
    | Search s => exact Or.inr (Or.inr ⟨s, rfl⟩)
  · intro p
    cases p with
    | Metadata b => exact Or.inl ⟨b, rfl⟩
    | Chunk b => exact Or.inr (Or.inl ⟨b, rfl⟩)
    | SearchResults rs => exact Or.inr (Or.inr (Or.inl ⟨rs, rfl⟩))
    | NotFound => exact Or.inr (Or.inr (Or.inr rfl))

/-- C10: for every successfully read input, `prepare_video` returns metadata
with exactly one chunk at order 0 whose size is the input length and whose id
equals the video id, and the fixed placeholder fields duration 0.0, codec
"mp4", title "Untitled", description "No description". -/
theorem C10_single_chunk_placeholder (buffer : List Nat) :
    VideoProcessor.prepare_video buffer = Except.ok (VideoProcessor.prepare_video_core buffer) ∧
    (VideoProcessor.prepare_video_core buffer).chunks =
      [{ hash := (VideoProcessor.prepare_video_core buffer).hash,
         size := buffer.length, order := 0 }] ∧
    (VideoProcessor.prepare_video_core buffer).duration = 0.0 ∧
    (VideoProcessor.prepare_video_core buffer).codec = "mp4" ∧
    (VideoProcessor.prepare_video_core buffer).title = "Untitled" ∧
    (VideoProcessor.prepare_video_core buffer).description = "No description" :=
  ⟨rfl, rfl, rfl, rfl, rfl, rfl⟩
